import Mathlib

/-!
Verification of the supervision/retry engine of `webmon.py` (Assignment-2).

The shallow embedding below translates the Python source function by
function.  Probe results (`int` status code, the strings `'timeout'` and
`'error'` returned by `perform_request`) become the inductive
`ProbeResult`; one supervision-loop cycle of `monitor_ubs`
(lines 103-140 of `webmon.py`) becomes the pure function `monitorCycle`,
with the inner `while` retry loop (lines 120-127) given as the
fuel-bounded recursion `retryLoopAux` (fuel `max_attempts` is shown
adequate by `retryLoopAux_fuel_eq`).  Log lines written by `log_to_file`
are collected as a list of `LogEvent`s; a second embedding
(`monitorCycleE`) keeps Python's exception semantics for `log_to_file`,
where a failed write propagates out of the cycle.
-/

namespace Webmon

/-- Result of `perform_request` (webmon.py lines 57-73): an `int` HTTP
status code, or the string `'timeout'`, or the string `'error'`. -/
inductive ProbeResult where
  | status (code : Nat)
  | timeout
  | error
deriving DecidableEq, Repr

/-- Outcome of the underlying `requests.get` call inside
`perform_request`: a response with a status code, a raised
`requests.exceptions.Timeout`, or any other raised `Exception`. -/
inductive NetResult where
  | response (status_code : Nat)
  | timeoutRaised
  | otherErrorRaised
deriving DecidableEq, Repr

/-- `perform_request` (webmon.py lines 57-73): returns
`response.status_code` on success, `'timeout'` on
`requests.exceptions.Timeout`, `'error'` on any other `Exception`. -/
def perform_request (net : NetResult) : ProbeResult :=
  match net with
  | NetResult.response code => ProbeResult.status code
  | NetResult.timeoutRaised => ProbeResult.timeout
  | NetResult.otherErrorRaised => ProbeResult.error

/-- Python's `isinstance(status_code, int)` on a `ProbeResult`. -/
def isIntCode : ProbeResult → Bool
  | ProbeResult.status _ => true
  | _ => false

/-- The integer value of an integer probe result; only ever used under an
`isIntCode` guard, mirroring Python's dynamic typing. -/
def intCode : ProbeResult → Nat
  | ProbeResult.status code => code
  | _ => 0

/-- List-level prefix test, the semantics of Python's `str.startswith`. -/
def charsPre : List Char → List Char → Bool
  | [], _ => true
  | _ :: _, [] => false
  | a :: as, b :: bs => a == b && charsPre as bs

/-- Python's `s.startswith(p)`. -/
def pyStartsWith (s p : String) : Bool := charsPre p.data s.data

/-- `status_code_matches` (webmon.py lines 76-90):
`if outcome_key == 'timeout' and status_code == 'timeout': return True`
`elif outcome_key.startswith('http') and isinstance(status_code, int):`
`    return outcome_key == 'http' + str(status_code)`
`else: return False`. -/
def status_code_matches (status_code : ProbeResult) (outcome_key : String) : Bool :=
  if outcome_key == "timeout" && status_code == ProbeResult.timeout then
    true
  else if pyStartsWith outcome_key "http" && isIntCode status_code then
    outcome_key == "http" ++ toString (intCode status_code)
  else
    false

/-- Outcome-key derivation (webmon.py line 112):
`'http' + str(status_code) if isinstance(status_code, int) else status_code`
(a non-int `status_code` is already the string `'timeout'` or `'error'`). -/
def outcome_key_of (status_code : ProbeResult) : String :=
  match status_code with
  | ProbeResult.status code => "http" ++ toString code
  | ProbeResult.timeout => "timeout"
  | ProbeResult.error => "error"

/-- One policy entry of the JSON configuration; both fields may be absent
(Python reads them with `dict.get` and a default). -/
structure RetryConfigEntry where
  retrytimes : Option Nat
  action : Option String
deriving DecidableEq, Repr

/-- The policy table part of the webmon configuration: outcome keys
mapped to entries. -/
structure Config where
  entries : List (String × RetryConfigEntry)
deriving DecidableEq, Repr

/-- Python's `config.get(outcome_key)`: `none` when the key is absent. -/
def Config.get (config : Config) (key : String) : Option RetryConfigEntry :=
  (config.entries.find? (fun p => p.fst == key)).map Prod.snd

/-- `config.get(outcome_key, {}).get('retrytimes', 0)` (webmon.py lines 113-114). -/
def getRetrytimes (config : Config) (key : String) : Nat :=
  match config.get key with
  | some entry => entry.retrytimes.getD 0
  | none => 0

/-- `config.get(outcome_key, {}).get('action', 'nothing')` (webmon.py lines 113, 115). -/
def getAction (config : Config) (key : String) : String :=
  match config.get key with
  | some entry => entry.action.getD "nothing"
  | none => "nothing"

/-- The log lines `monitor_ubs` writes via `log_to_file`, keeping the
data each line interpolates (timestamps are external collaborators and
omitted). -/
inductive LogEvent where
  /-- line 107: `"UBS restarted (process was not running)"` -/
  | restartNotRunning
  /-- line 121: `"Attempt {attempts}/{max_attempts}, Status: {status_code}"` -/
  | attemptLog (attempts max_attempts : Nat) (status : ProbeResult)
  /-- line 132: `"Attempt {attempts}/{max_attempts}, Status: {status_code} - Failed"` -/
  | failedLog (attempts max_attempts : Nat) (status : ProbeResult)
  /-- line 137: `"UBS restarted due to {outcome_key}"` -/
  | restartDueOutcome (outcome_key : String)
  /-- line 140: `"Successful response: Status {status_code} after {attempts} attempts"` -/
  | successLog (status : ProbeResult) (attempts : Nat)
deriving DecidableEq, Repr

/-- Count of failure events (line 132) in a log. -/
def countFailed (logs : List LogEvent) : Nat :=
  (logs.filter (fun e => match e with | LogEvent.failedLog _ _ _ => true | _ => false)).length

/-- Count of success events (line 140) in a log. -/
def countSuccess (logs : List LogEvent) : Nat :=
  (logs.filter (fun e => match e with | LogEvent.successLog _ _ => true | _ => false)).length

/-- Count of restart-due-to-outcome events (line 137) in a log. -/
def countRestartOutcome (logs : List LogEvent) : Nat :=
  (logs.filter (fun e => match e with | LogEvent.restartDueOutcome _ => true | _ => false)).length

/-- Count of restarted-because-not-running events (line 107) in a log. -/
def countRestartNotRunning (logs : List LogEvent) : Nat :=
  (logs.filter (fun e => match e with | LogEvent.restartNotRunning => true | _ => false)).length

/-- Count of per-attempt retry log lines (line 121) in a log. -/
def countAttemptLogs (logs : List LogEvent) : Nat :=
  (logs.filter (fun e => match e with | LogEvent.attemptLog _ _ _ => true | _ => false)).length

/-- The mutable state of the retry `while` loop (webmon.py lines 117-127):
the `attempts` counter, the current `status_code`, how many probes have
been performed so far in the cycle, and the log lines written so far. -/
structure RetryState where
  attempts : Nat
  status_code : ProbeResult
  probesUsed : Nat
  logs : List LogEvent
deriving DecidableEq, Repr

/-- The `while` condition of webmon.py line 120:
`attempts < max_attempts and status_code_matches(status_code, outcome_key)`. -/
def retryGuard (attempts max_attempts : Nat) (status_code : ProbeResult)
    (outcome_key : String) : Bool :=
  decide (attempts < max_attempts) && status_code_matches status_code outcome_key

/-- The retry `while` loop (webmon.py lines 120-127), fuel-bounded.
Body: log the attempt, increment `attempts`, break when
`attempts >= max_attempts`, otherwise probe again (the sleep is pure
delay and not modelled).  `retryLoopAux_fuel_eq` shows any fuel with
`max_attempts ≤ attempts + fuel` computes the loop's true result, so
entering with fuel `max_attempts` and `attempts = 1` is exact. -/
def retryLoopAux (probe : Nat → ProbeResult) (outcome_key : String)
    (max_attempts : Nat) : Nat → RetryState → RetryState
  | 0, s => s
  | fuel + 1, s =>
    if retryGuard s.attempts max_attempts s.status_code outcome_key then
      let logs := s.logs ++ [LogEvent.attemptLog s.attempts max_attempts s.status_code]
      let attempts := s.attempts + 1
      if max_attempts ≤ attempts then
        { s with attempts := attempts, logs := logs }
      else
        retryLoopAux probe outcome_key max_attempts fuel
          { attempts := attempts,
            status_code := probe s.probesUsed,
            probesUsed := s.probesUsed + 1,
            logs := logs }
    else s

/-- Observable outcome of one pass of the `while True` body of
`monitor_ubs` (webmon.py lines 103-140).  When the liveness check fails
(`probed = false`) no probe happens; `outcome_key` and `finalStatus` are
then inert placeholders (`""` and `.error`), guarded by `probed`. -/
structure CycleResult where
  restartedNotRunning : Bool
  probed : Bool
  outcome_key : String
  finalStatus : ProbeResult
  attempts : Nat
  max_attempts : Nat
  probesUsed : Nat
  terminated : Bool
  restartedDueOutcome : Bool
  logs : List LogEvent
deriving DecidableEq, Repr

/-- The Deciding step (webmon.py lines 129-140): if the final status
still matches the original `outcome_key` and the key is not `'http200'`,
log the failure line and, when the configured `action` is `'restart'`,
terminate and restart the process and log the restart line; otherwise
log the success line. -/
def decidingStep (action outcome_key : String) (max_attempts : Nat)
    (final : RetryState) : CycleResult :=
  if status_code_matches final.status_code outcome_key && !(outcome_key == "http200") then
    let logs := final.logs ++ [LogEvent.failedLog final.attempts max_attempts final.status_code]
    if action == "restart" then
      { restartedNotRunning := false, probed := true, outcome_key := outcome_key,
        finalStatus := final.status_code, attempts := final.attempts,
        max_attempts := max_attempts, probesUsed := final.probesUsed,
        terminated := true, restartedDueOutcome := true,
        logs := logs ++ [LogEvent.restartDueOutcome outcome_key] }
    else
      { restartedNotRunning := false, probed := true, outcome_key := outcome_key,
        finalStatus := final.status_code, attempts := final.attempts,
        max_attempts := max_attempts, probesUsed := final.probesUsed,
        terminated := false, restartedDueOutcome := false, logs := logs }
  else
    { restartedNotRunning := false, probed := true, outcome_key := outcome_key,
      finalStatus := final.status_code, attempts := final.attempts,
      max_attempts := max_attempts, probesUsed := final.probesUsed,
      terminated := false, restartedDueOutcome := false,
      logs := final.logs ++ [LogEvent.successLog final.status_code final.attempts] }

/-- Probing, Retrying and Deciding (webmon.py lines 110-140): initial
request, key derivation, policy lookup, the retry `while` loop started
with `attempts = 1`, then the deciding step. -/
def probeCycle (config : Config) (probe : Nat → ProbeResult) : CycleResult :=
  let status_code := probe 0
  let outcome_key := outcome_key_of status_code
  let retrytimes := getRetrytimes config outcome_key
  let action := getAction config outcome_key
  let max_attempts := 1 + retrytimes
  let final := retryLoopAux probe outcome_key max_attempts max_attempts
    { attempts := 1, status_code := status_code, probesUsed := 1, logs := [] }
  decidingStep action outcome_key max_attempts final

/-- One cycle of `monitor_ubs` (webmon.py lines 103-140).  `alive` is the
result of `is_ubs_running(process)`; `probe k` is the result the `k`-th
`perform_request` call of this cycle would return (`probe 0` is the
initial request of line 111). -/
def monitorCycle (config : Config) (alive : Bool) (probe : Nat → ProbeResult) : CycleResult :=
  if !alive then
    { restartedNotRunning := true, probed := false, outcome_key := "",
      finalStatus := ProbeResult.error, attempts := 0, max_attempts := 0,
      probesUsed := 0, terminated := false, restartedDueOutcome := false,
      logs := [LogEvent.restartNotRunning] }
  else
    probeCycle config probe

/-- The policy of spec property §8: `{"http403": {"retrytimes": 2, "action": "restart"}}`. -/
def cfg403 : Config :=
  { entries := [("http403", { retrytimes := some 2, action := some "restart" })] }

/-- A policy that configures retries and a restart action for the
transport-error key: `{"error": {"retrytimes": 2, "action": "restart"}}`. -/
def cfgError : Config :=
  { entries := [("error", { retrytimes := some 2, action := some "restart" })] }

/-- `log_to_file` (webmon.py lines 47-55) with Python's exception
semantics: `open`/`write` may raise, and the function has no handler,
so a failed write surfaces as `Except.error`.  `sinkOk e` says whether
writing the line for event `e` succeeds. -/
def logWrite (sinkOk : LogEvent → Bool) (logs : List LogEvent) (e : LogEvent) :
    Except Unit (List LogEvent) :=
  if sinkOk e then Except.ok (logs ++ [e]) else Except.error ()

/-- The retry `while` loop of `monitor_ubs`, with `log_to_file` raising
according to `sinkOk`; `monitor_ubs` has no `try`/`except`, so the
exception propagates out of the loop. -/
def retryLoopAuxE (sinkOk : LogEvent → Bool) (probe : Nat → ProbeResult)
    (outcome_key : String) (max_attempts : Nat) : Nat → RetryState → Except Unit RetryState
  | 0, s => Except.ok s
  | fuel + 1, s =>
    if retryGuard s.attempts max_attempts s.status_code outcome_key then
      match logWrite sinkOk s.logs (LogEvent.attemptLog s.attempts max_attempts s.status_code) with
      | Except.error e => Except.error e
      | Except.ok logs =>
        let attempts := s.attempts + 1
        if max_attempts ≤ attempts then
          Except.ok { s with attempts := attempts, logs := logs }
        else
          retryLoopAuxE sinkOk probe outcome_key max_attempts fuel
            { attempts := attempts,
              status_code := probe s.probesUsed,
              probesUsed := s.probesUsed + 1,
              logs := logs }
    else Except.ok s

/-- One cycle of `monitor_ubs` with `log_to_file` raising according to
`sinkOk`: since neither `log_to_file` nor `monitor_ubs` catches the
exception, the cycle aborts (`Except.error`) at the first failed write. -/
def monitorCycleE (sinkOk : LogEvent → Bool) (config : Config) (alive : Bool)
    (probe : Nat → ProbeResult) : Except Unit CycleResult :=
  if !alive then
    match logWrite sinkOk [] LogEvent.restartNotRunning with
    | Except.error e => Except.error e
    | Except.ok logs =>
      Except.ok
        { restartedNotRunning := true, probed := false, outcome_key := "",
          finalStatus := ProbeResult.error, attempts := 0, max_attempts := 0,
          probesUsed := 0, terminated := false, restartedDueOutcome := false, logs := logs }
  else
    let status_code := probe 0
    let outcome_key := outcome_key_of status_code
    let retrytimes := getRetrytimes config outcome_key
    let action := getAction config outcome_key
    let max_attempts := 1 + retrytimes
    match retryLoopAuxE sinkOk probe outcome_key max_attempts max_attempts
      { attempts := 1, status_code := status_code, probesUsed := 1, logs := [] } with
    | Except.error e => Except.error e
    | Except.ok final =>
      if status_code_matches final.status_code outcome_key && !(outcome_key == "http200") then
        match logWrite sinkOk final.logs
            (LogEvent.failedLog final.attempts max_attempts final.status_code) with
        | Except.error e => Except.error e
        | Except.ok logs =>
          if action == "restart" then
            match logWrite sinkOk logs (LogEvent.restartDueOutcome outcome_key) with
            | Except.error e => Except.error e
            | Except.ok logs2 =>
              Except.ok
                { restartedNotRunning := false, probed := true,
                  outcome_key := outcome_key, finalStatus := final.status_code,
                  attempts := final.attempts, max_attempts := max_attempts,
                  probesUsed := final.probesUsed, terminated := true,
                  restartedDueOutcome := true, logs := logs2 }
          else
            Except.ok
              { restartedNotRunning := false, probed := true,
                outcome_key := outcome_key, finalStatus := final.status_code,
                attempts := final.attempts, max_attempts := max_attempts,
                probesUsed := final.probesUsed, terminated := false,
                restartedDueOutcome := false, logs := logs }
      else
        match logWrite sinkOk final.logs (LogEvent.successLog final.status_code final.attempts) with
        | Except.error e => Except.error e
        | Except.ok logs =>
          Except.ok
            { restartedNotRunning := false, probed := true,
              outcome_key := outcome_key, finalStatus := final.status_code,
              attempts := final.attempts, max_attempts := max_attempts,
              probesUsed := final.probesUsed, terminated := false,
              restartedDueOutcome := false, logs := logs }

/-- Whether the cycle was aborted by a propagating exception. -/
def cycleAborted : Except Unit CycleResult → Bool
  | Except.error _ => true
  | Except.ok _ => false

/-- The condition of the Deciding step (webmon.py line 130), read off a
cycle's result: the final status still matches the cycle's original
outcome key and that key is not `'http200'`. -/
def decidingGuard (r : CycleResult) : Bool :=
  status_code_matches r.finalStatus r.outcome_key && !(r.outcome_key == "http200")

theorem charsPre_append (l t : List Char) : charsPre l (l ++ t) = true := by
  induction l with
  | nil => rfl
  | cons a as ih => simp [charsPre, ih]

theorem pyStartsWith_http_append (t : String) : pyStartsWith ("http" ++ t) "http" = true := by
  unfold pyStartsWith
  rw [String.data_append]
  exact charsPre_append _ _

theorem http_append_ne_timeout (t : String) : "http" ++ t ≠ "timeout" := by
  intro h
  have hd := congrArg String.data h
  rw [String.data_append] at hd
  have h2 : "http".data = ['h', 't', 't', 'p'] := rfl
  have h3 : "timeout".data = ['t', 'i', 'm', 'e', 'o', 'u', 't'] := rfl
  rw [h2, h3] at hd
  simp at hd

theorem http_append_ne_error (t : String) : "http" ++ t ≠ "error" := by
  intro h
  have hd := congrArg String.data h
  rw [String.data_append] at hd
  have h2 : "http".data = ['h', 't', 't', 'p'] := rfl
  have h3 : "error".data = ['e', 'r', 'r', 'o', 'r'] := rfl
  rw [h2, h3] at hd
  simp at hd

theorem string_beq_false_of_ne {a b : String} (h : a ≠ b) : (a == b) = false :=
  beq_eq_false_iff_ne.mpr h

theorem string_beq_comm (a b : String) : (a == b) = (b == a) := by
  by_cases h : a = b
  · subst h; rfl
  · rw [string_beq_false_of_ne h, string_beq_false_of_ne (Ne.symm h)]

/-- For a first probe that is not a transport error, the program's match
predicate against the derived key coincides with re-classifying the
current result and comparing keys. -/
theorem status_code_matches_eq_reclassify (first s : ProbeResult)
    (h : first ≠ ProbeResult.error) :
    status_code_matches s (outcome_key_of first) =
      (outcome_key_of s == outcome_key_of first) := by
  cases first with
  | error => exact absurd rfl h
  | timeout =>
    cases s with
    | status n =>
      have hL : status_code_matches (ProbeResult.status n)
          (outcome_key_of ProbeResult.timeout) = false := rfl
      rw [hL]
      exact (string_beq_false_of_ne (http_append_ne_timeout (toString n))).symm
    | timeout => rfl
    | error => rfl
  | status m =>
    cases s with
    | status n =>
      show status_code_matches (ProbeResult.status n) ("http" ++ toString m) =
        ("http" ++ toString n == "http" ++ toString m)
      unfold status_code_matches
      rw [string_beq_false_of_ne (http_append_ne_timeout (toString m))]
      simp [pyStartsWith_http_append, isIntCode, intCode, string_beq_comm]
    | timeout =>
      show status_code_matches ProbeResult.timeout ("http" ++ toString m) =
        ("timeout" == "http" ++ toString m)
      unfold status_code_matches
      rw [string_beq_false_of_ne (http_append_ne_timeout (toString m)),
        string_beq_false_of_ne (Ne.symm (http_append_ne_timeout (toString m)))]
      simp [isIntCode]
    | error =>
      show status_code_matches ProbeResult.error ("http" ++ toString m) =
        ("error" == "http" ++ toString m)
      unfold status_code_matches
      rw [string_beq_false_of_ne (http_append_ne_timeout (toString m)),
        string_beq_false_of_ne (Ne.symm (http_append_ne_error (toString m)))]
      simp [isIntCode]

theorem retryLoopAux_guard_false (probe : Nat → ProbeResult) (k : String)
    (m fuel : Nat) (s : RetryState)
    (h : retryGuard s.attempts m s.status_code k = false) :
    retryLoopAux probe k m fuel s = s := by
  cases fuel with
  | zero => rfl
  | succ n => simp [retryLoopAux, h]

/-- Fuel adequacy: any fuel at least `max_attempts - attempts` computes
the true result of the unbounded `while` loop, so `retryLoopAux` with
fuel `max_attempts` from `attempts = 1` is an exact embedding of
webmon.py lines 120-127. -/
theorem retryLoopAux_fuel_eq (probe : Nat → ProbeResult) (k : String) (m : Nat) :
    ∀ fuel fuel' s, m ≤ s.attempts + fuel → m ≤ s.attempts + fuel' →
      retryLoopAux probe k m fuel s = retryLoopAux probe k m fuel' s := by
  intro fuel
  induction fuel with
  | zero =>
    intro fuel' s h h'
    have hg : retryGuard s.attempts m s.status_code k = false := by
      unfold retryGuard
      have hnot : ¬ s.attempts < m := by omega
      simp [hnot]
    rw [retryLoopAux_guard_false probe k m 0 s hg,
      retryLoopAux_guard_false probe k m fuel' s hg]
  | succ f ih =>
    intro fuel' s h h'
    by_cases hg : retryGuard s.attempts m s.status_code k = true
    · have hlt : s.attempts < m := by
        unfold retryGuard at hg
        rw [Bool.and_eq_true] at hg
        exact of_decide_eq_true hg.1
      obtain ⟨f', rfl⟩ : ∃ f', fuel' = f' + 1 := ⟨fuel' - 1, by omega⟩
      show retryLoopAux probe k m (f + 1) s = retryLoopAux probe k m (f' + 1) s
      rw [retryLoopAux, retryLoopAux]
      rw [hg]
      simp only [if_true]
      by_cases hb : m ≤ s.attempts + 1
      · simp [hb]
      · simp only [hb, if_false]
        exact ih f' _ (by simp; omega) (by simp; omega)
    · have hg' : retryGuard s.attempts m s.status_code k = false :=
        Bool.eq_false_iff.mpr hg
      rw [retryLoopAux_guard_false probe k m (f + 1) s hg',
        retryLoopAux_guard_false probe k m fuel' s hg']

theorem counts_append_attemptLog (l : List LogEvent) (a b : Nat) (st : ProbeResult) :
    countFailed (l ++ [LogEvent.attemptLog a b st]) = countFailed l ∧
    countSuccess (l ++ [LogEvent.attemptLog a b st]) = countSuccess l ∧
    countRestartOutcome (l ++ [LogEvent.attemptLog a b st]) = countRestartOutcome l := by
  simp [countFailed, countSuccess, countRestartOutcome, List.filter_append]

/-- The retry loop writes only per-attempt log lines: it adds no
failure, success or restart events. -/
theorem retryLoopAux_counts (probe : Nat → ProbeResult) (k : String) (m : Nat) :
    ∀ fuel s,
      countFailed (retryLoopAux probe k m fuel s).logs = countFailed s.logs ∧
      countSuccess (retryLoopAux probe k m fuel s).logs = countSuccess s.logs ∧
      countRestartOutcome (retryLoopAux probe k m fuel s).logs = countRestartOutcome s.logs := by
  intro fuel
  induction fuel with
  | zero => intro s; exact ⟨rfl, rfl, rfl⟩
  | succ f ih =>
    intro s
    by_cases hg : retryGuard s.attempts m s.status_code k = true
    · rw [retryLoopAux]
      rw [hg]
      simp only [if_true]
      by_cases hb : m ≤ s.attempts + 1
      · simp only [hb, if_true]
        exact counts_append_attemptLog s.logs s.attempts m s.status_code
      · simp only [hb, if_false]
        have hc := counts_append_attemptLog s.logs s.attempts m s.status_code
        have hr := ih ⟨s.attempts + 1, probe s.probesUsed, s.probesUsed + 1,
          s.logs ++ [LogEvent.attemptLog s.attempts m s.status_code]⟩
        exact ⟨hr.1.trans hc.1, hr.2.1.trans hc.2.1, hr.2.2.trans hc.2.2⟩
    · have hg' : retryGuard s.attempts m s.status_code k = false :=
        Bool.eq_false_iff.mpr hg
      rw [retryLoopAux_guard_false probe k m (f + 1) s hg']
      exact ⟨rfl, rfl, rfl⟩

/-- Full characterisation of the Deciding step: which fields it
produces and which events it adds to the log, as a function of the
line-130 condition and the configured action. -/
theorem decidingStep_spec (action outcome_key : String) (m : Nat) (final : RetryState) :
    (decidingStep action outcome_key m final).outcome_key = outcome_key ∧
    (decidingStep action outcome_key m final).finalStatus = final.status_code ∧
    (decidingStep action outcome_key m final).attempts = final.attempts ∧
    (decidingStep action outcome_key m final).probesUsed = final.probesUsed ∧
    (decidingStep action outcome_key m final).max_attempts = m ∧
    (decidingStep action outcome_key m final).probed = true ∧
    (decidingStep action outcome_key m final).restartedNotRunning = false ∧
    countFailed (decidingStep action outcome_key m final).logs =
      countFailed final.logs +
        (if status_code_matches final.status_code outcome_key && !(outcome_key == "http200")
          then 1 else 0) ∧
    countSuccess (decidingStep action outcome_key m final).logs =
      countSuccess final.logs +
        (if status_code_matches final.status_code outcome_key && !(outcome_key == "http200")
          then 0 else 1) ∧
    countRestartOutcome (decidingStep action outcome_key m final).logs =
      countRestartOutcome final.logs +
        (if (status_code_matches final.status_code outcome_key && !(outcome_key == "http200"))
            && (action == "restart") then 1 else 0) ∧
    (decidingStep action outcome_key m final).restartedDueOutcome =
      ((status_code_matches final.status_code outcome_key && !(outcome_key == "http200"))
        && (action == "restart")) ∧
    (decidingStep action outcome_key m final).terminated =
      ((status_code_matches final.status_code outcome_key && !(outcome_key == "http200"))
        && (action == "restart")) ∧
    ((status_code_matches final.status_code outcome_key && !(outcome_key == "http200")) = false →
      (decidingStep action outcome_key m final).logs =
        final.logs ++ [LogEvent.successLog final.status_code final.attempts]) := by
  by_cases hg : (status_code_matches final.status_code outcome_key
      && !(outcome_key == "http200")) = true
  · by_cases ha : (action == "restart") = true
    · simp [decidingStep, hg, ha, countFailed, countSuccess, countRestartOutcome,
        List.filter_append]
    · have ha' : (action == "restart") = false := Bool.eq_false_iff.mpr ha
      simp [decidingStep, hg, ha', countFailed, countSuccess, countRestartOutcome,
        List.filter_append]
  · have hg' : (status_code_matches final.status_code outcome_key
        && !(outcome_key == "http200")) = false := Bool.eq_false_iff.mpr hg
    simp [decidingStep, hg', countFailed, countSuccess, countRestartOutcome,
      List.filter_append]

/-- `probeCycle` unfolded: the probing part of a cycle is the deciding
step applied to the result of the retry loop started from the first
probe. -/
theorem probeCycle_eq (config : Config) (probe : Nat → ProbeResult) :
    probeCycle config probe =
      decidingStep (getAction config (outcome_key_of (probe 0))) (outcome_key_of (probe 0))
        (1 + getRetrytimes config (outcome_key_of (probe 0)))
        (retryLoopAux probe (outcome_key_of (probe 0))
          (1 + getRetrytimes config (outcome_key_of (probe 0)))
          (1 + getRetrytimes config (outcome_key_of (probe 0)))
          { attempts := 1, status_code := probe 0, probesUsed := 1, logs := [] }) := rfl

/-- Claim C1 (amended): for every cycle whose original outcome key is
derived from a first probe that is not a transport error (so the key is
`'timeout'` or some `'httpN'`), the retry sub-loop's continuation guard
holds if and only if `attempts < maxAttempts` and the freshly
re-classified outcome of the latest probe equals the original outcome
key.  For the transport-error key `'error'` the guard is always false
(see the counterexample), so the equivalence excludes that key. -/
theorem retry_guard_iff_reclassified_match (first s : ProbeResult)
    (attempts max_attempts : Nat) (h : first ≠ ProbeResult.error) :
    retryGuard attempts max_attempts s (outcome_key_of first) =
      (decide (attempts < max_attempts) && (outcome_key_of s == outcome_key_of first)) := by
  unfold retryGuard
  rw [status_code_matches_eq_reclassify first s h]

/-- Witness for the amended claim C1 at a concrete input: with original
outcome `timeout`, a fresh `timeout` probe and attempts remaining, the
loop guard holds. -/
theorem retry_guard_iff_reclassified_match_witness :
    ProbeResult.timeout ≠ ProbeResult.error ∧
    retryGuard 1 3 ProbeResult.timeout (outcome_key_of ProbeResult.timeout) =
      (decide (1 < 3) && (outcome_key_of ProbeResult.timeout == outcome_key_of ProbeResult.timeout)) :=
  ⟨by decide, retry_guard_iff_reclassified_match ProbeResult.timeout ProbeResult.timeout 1 3
    (by decide)⟩

/-- Counterexample to claim C1 as stated: for the transport-error key
`'error'`, with `attempts = 1 < 3 = maxAttempts` and the fresh outcome
equal to the original key, the code's loop guard (line 120) is
nevertheless false, and with `{"error": {"retrytimes": 2, "action":
"restart"}}` and every probe a transport error the cycle performs no
retry at all (the attempts counter stays 1 and only one probe happens). -/
theorem error_key_retry_guard_counterexample :
    retryGuard 1 3 ProbeResult.error (outcome_key_of ProbeResult.error) = false ∧
    1 < 3 ∧
    outcome_key_of ProbeResult.error = outcome_key_of ProbeResult.error ∧
    (monitorCycle cfgError true (fun _ => ProbeResult.error)).attempts = 1 ∧
    (monitorCycle cfgError true (fun _ => ProbeResult.error)).probesUsed = 1 := by decide

/-- Claim C2: given the policy `{"http403": {"retrytimes": 2, "action":
"restart"}}` and every probe of the cycle returning HTTP 403, the cycle
ends with the attempts counter at 3 (of `maxAttempts = 3`), terminates
and restarts the supervised process, and logs exactly one failure event
and exactly one restart event.  (Only two HTTP probes are issued: the
loop breaks at `attempts >= max_attempts` before re-probing.) -/
theorem http403_policy_three_attempts_restart (probe : Nat → ProbeResult)
    (h : ∀ i, probe i = ProbeResult.status 403) :
    (monitorCycle cfg403 true probe).attempts = 3 ∧
    (monitorCycle cfg403 true probe).max_attempts = 3 ∧
    (monitorCycle cfg403 true probe).terminated = true ∧
    (monitorCycle cfg403 true probe).restartedDueOutcome = true ∧
    countFailed (monitorCycle cfg403 true probe).logs = 1 ∧
    countRestartOutcome (monitorCycle cfg403 true probe).logs = 1 ∧
    countSuccess (monitorCycle cfg403 true probe).logs = 0 ∧
    (monitorCycle cfg403 true probe).probesUsed = 2 := by
  have hp : probe = fun _ => ProbeResult.status 403 := funext h
  subst hp
  decide

/-- Witness for claim C2 at the constant-403 probe stream. -/
theorem http403_policy_three_attempts_restart_witness :
    (∀ i : Nat, (fun _ : Nat => ProbeResult.status 403) i = ProbeResult.status 403) ∧
    (monitorCycle cfg403 true (fun _ => ProbeResult.status 403)).attempts = 3 ∧
    (monitorCycle cfg403 true (fun _ => ProbeResult.status 403)).max_attempts = 3 ∧
    (monitorCycle cfg403 true (fun _ => ProbeResult.status 403)).terminated = true ∧
    (monitorCycle cfg403 true (fun _ => ProbeResult.status 403)).restartedDueOutcome = true ∧
    countFailed (monitorCycle cfg403 true (fun _ => ProbeResult.status 403)).logs = 1 ∧
    countRestartOutcome (monitorCycle cfg403 true (fun _ => ProbeResult.status 403)).logs = 1 ∧
    countSuccess (monitorCycle cfg403 true (fun _ => ProbeResult.status 403)).logs = 0 ∧
    (monitorCycle cfg403 true (fun _ => ProbeResult.status 403)).probesUsed = 2 :=
  ⟨fun _ => rfl, http403_policy_three_attempts_restart (fun _ => ProbeResult.status 403)
    (fun _ => rfl)⟩

/-- Claim C3: at the Deciding step of every probing cycle, if the final
outcome still matches the original outcome key (the code's match
predicate of line 130) and the key is not `'http200'`, exactly one
failure event is logged and the process is terminated-and-restarted if
and only if the policy entry's action is `restart`; otherwise exactly
one success event recording the final status and the attempt count is
logged and no outcome-driven restart occurs. -/
theorem deciding_step_contract (config : Config) (probe : Nat → ProbeResult) :
    countFailed (monitorCycle config true probe).logs =
      (if decidingGuard (monitorCycle config true probe) then 1 else 0) ∧
    countSuccess (monitorCycle config true probe).logs =
      (if decidingGuard (monitorCycle config true probe) then 0 else 1) ∧
    (monitorCycle config true probe).restartedDueOutcome =
      (decidingGuard (monitorCycle config true probe)
        && (getAction config (monitorCycle config true probe).outcome_key == "restart")) ∧
    (monitorCycle config true probe).terminated =
      (decidingGuard (monitorCycle config true probe)
        && (getAction config (monitorCycle config true probe).outcome_key == "restart")) ∧
    (decidingGuard (monitorCycle config true probe) = false →
      (monitorCycle config true probe).logs.getLast? =
        some (LogEvent.successLog (monitorCycle config true probe).finalStatus
          (monitorCycle config true probe).attempts)) := by
  have hmc : monitorCycle config true probe = probeCycle config probe := rfl
  rw [hmc, probeCycle_eq]
  set key := outcome_key_of (probe 0) with hkeydef
  set m := 1 + getRetrytimes config key with hmdef
  set act := getAction config key with hactdef
  set final := retryLoopAux probe key m m
    { attempts := 1, status_code := probe 0, probesUsed := 1, logs := [] } with hfinaldef
  obtain ⟨hk, hs, hatt, hpu, hm2, hprb, hrnr, hcf, hcs, hcr, hrdo, hterm, hlast⟩ :=
    decidingStep_spec act key m final
  have hdg : decidingGuard (decidingStep act key m final) =
      (status_code_matches final.status_code key && !(key == "http200")) := by
    unfold decidingGuard
    rw [hk, hs]
  have hc := retryLoopAux_counts probe key m m
    { attempts := 1, status_code := probe 0, probesUsed := 1, logs := [] }
  rw [← hfinaldef] at hc
  refine ⟨?_, ?_, ?_, ?_, ?_⟩
  · rw [hcf, hc.1, hdg]
    simp [countFailed]
  · rw [hcs, hc.2.1, hdg]
    simp [countSuccess]
  · rw [hrdo, hdg, hk]
  · rw [hterm, hdg, hk]
  · intro hge
    rw [hdg] at hge
    rw [hlast hge, hs, hatt]
    exact List.getLast?_concat _

/-- Witness for claim C3 at a concrete input (constant-403 probes under
the `cfg403` policy). -/
theorem deciding_step_contract_witness :
    countFailed (monitorCycle cfg403 true (fun _ => ProbeResult.status 403)).logs =
      (if decidingGuard (monitorCycle cfg403 true (fun _ => ProbeResult.status 403))
        then 1 else 0) ∧
    countSuccess (monitorCycle cfg403 true (fun _ => ProbeResult.status 403)).logs =
      (if decidingGuard (monitorCycle cfg403 true (fun _ => ProbeResult.status 403))
        then 0 else 1) ∧
    (monitorCycle cfg403 true (fun _ => ProbeResult.status 403)).restartedDueOutcome =
      (decidingGuard (monitorCycle cfg403 true (fun _ => ProbeResult.status 403))
        && (getAction cfg403
          (monitorCycle cfg403 true (fun _ => ProbeResult.status 403)).outcome_key
            == "restart")) ∧
    (monitorCycle cfg403 true (fun _ => ProbeResult.status 403)).terminated =
      (decidingGuard (monitorCycle cfg403 true (fun _ => ProbeResult.status 403))
        && (getAction cfg403
          (monitorCycle cfg403 true (fun _ => ProbeResult.status 403)).outcome_key
            == "restart")) ∧
    (decidingGuard (monitorCycle cfg403 true (fun _ => ProbeResult.status 403)) = false →
      (monitorCycle cfg403 true (fun _ => ProbeResult.status 403)).logs.getLast? =
        some (LogEvent.successLog
          (monitorCycle cfg403 true (fun _ => ProbeResult.status 403)).finalStatus
          (monitorCycle cfg403 true (fun _ => ProbeResult.status 403)).attempts)) :=
  deciding_step_contract cfg403 (fun _ => ProbeResult.status 403)

/-- Claim C4: under the policy `{"http403": {"retrytimes": 2, "action":
"restart"}}`, if the first probe returns 403 and the second returns 200,
the retry loop stops right after the second probe even though one retry
attempt remains, no restart happens, and the cycle logs a success event
reporting 2 attempts. -/
theorem early_exit_on_outcome_mismatch (probe : Nat → ProbeResult)
    (h0 : probe 0 = ProbeResult.status 403) (h1 : probe 1 = ProbeResult.status 200) :
    (monitorCycle cfg403 true probe).attempts = 2 ∧
    (monitorCycle cfg403 true probe).max_attempts = 3 ∧
    (monitorCycle cfg403 true probe).probesUsed = 2 ∧
    (monitorCycle cfg403 true probe).terminated = false ∧
    (monitorCycle cfg403 true probe).restartedDueOutcome = false ∧
    countSuccess (monitorCycle cfg403 true probe).logs = 1 ∧
    countFailed (monitorCycle cfg403 true probe).logs = 0 ∧
    (monitorCycle cfg403 true probe).logs.getLast? =
      some (LogEvent.successLog (ProbeResult.status 200) 2) := by
  have hmc : monitorCycle cfg403 true probe = probeCycle cfg403 probe := rfl
  rw [hmc]
  simp only [probeCycle, h0]
  have hkey : outcome_key_of (ProbeResult.status 403) = "http403" := by decide
  have hrt : getRetrytimes cfg403 "http403" = 2 := by decide
  have hac : getAction cfg403 "http403" = "restart" := by decide
  rw [hkey, hrt, hac]
  have hloop : retryLoopAux probe "http403" (1 + 2) (1 + 2)
      { attempts := 1, status_code := ProbeResult.status 403, probesUsed := 1, logs := [] } =
      { attempts := 2, status_code := ProbeResult.status 200, probesUsed := 2,
        logs := [LogEvent.attemptLog 1 3 (ProbeResult.status 403)] } := by
    rw [show (1 + 2 : Nat) = 3 from rfl]
    rw [retryLoopAux]
    rw [show retryGuard 1 3 (ProbeResult.status 403) "http403" = true from by decide]
    simp only [if_true]
    rw [if_neg (by omega : ¬ (3 : Nat) ≤ 1 + 1)]
    rw [h1]
    rw [retryLoopAux]
    rw [show retryGuard (1 + 1) 3 (ProbeResult.status 200) "http403" = false from by decide]
    simp
  rw [hloop]
  decide

/-- Witness for claim C4 at the probe stream `[403, 200, 200, ...]`. -/
theorem early_exit_on_outcome_mismatch_witness :
    (fun k => if k = 0 then ProbeResult.status 403 else ProbeResult.status 200) 0 =
      ProbeResult.status 403 ∧
    (fun k => if k = 0 then ProbeResult.status 403 else ProbeResult.status 200) 1 =
      ProbeResult.status 200 ∧
    (monitorCycle cfg403 true
      (fun k => if k = 0 then ProbeResult.status 403 else ProbeResult.status 200)).attempts = 2 ∧
    countSuccess (monitorCycle cfg403 true
      (fun k => if k = 0 then ProbeResult.status 403 else ProbeResult.status 200)).logs = 1 :=
  ⟨rfl, rfl,
    (early_exit_on_outcome_mismatch
      (fun k => if k = 0 then ProbeResult.status 403 else ProbeResult.status 200) rfl rfl).1,
    (early_exit_on_outcome_mismatch
      (fun k => if k = 0 then ProbeResult.status 403 else ProbeResult.status 200)
        rfl rfl).2.2.2.2.2.1⟩

/-- Claim C5: when the supervised process is found not alive at the
start of a cycle, the cycle restarts it, logs exactly the one
restarted-because-not-running event, and performs no probe (no retry
state, no termination, no outcome-driven restart). -/
theorem dead_process_cycle_restarts_without_probe (config : Config)
    (probe : Nat → ProbeResult) :
    monitorCycle config false probe =
      { restartedNotRunning := true, probed := false, outcome_key := "",
        finalStatus := ProbeResult.error, attempts := 0, max_attempts := 0,
        probesUsed := 0, terminated := false, restartedDueOutcome := false,
        logs := [LogEvent.restartNotRunning] } := rfl

/-- Claim C6: outcome classification is a total deterministic function
of the raw probe result: an integer HTTP status code `n` is classified
to the key `"http" + n`, a timeout to `"timeout"`, and every other
probe failure to `"error"`. -/
theorem classification_total (n : Nat) :
    outcome_key_of (perform_request (NetResult.response n)) = "http" ++ toString n ∧
    outcome_key_of (perform_request NetResult.timeoutRaised) = "timeout" ∧
    outcome_key_of (perform_request NetResult.otherErrorRaised) = "error" :=
  ⟨rfl, rfl, rfl⟩

/-- Claim C7: for an outcome key absent from the policy table, the
lookup yields the default entry (`retrytimes = 0`, action `'nothing'`),
and a cycle whose first probe classifies to that key performs no retry
(one probe, attempts counter 1) and takes no outcome-driven restart. -/
theorem default_policy_entry (config : Config) (key : String) (probe : Nat → ProbeResult)
    (h : config.get key = none) (hp : outcome_key_of (probe 0) = key) :
    getRetrytimes config key = 0 ∧ getAction config key = "nothing" ∧
    (monitorCycle config true probe).attempts = 1 ∧
    (monitorCycle config true probe).probesUsed = 1 ∧
    (monitorCycle config true probe).restartedDueOutcome = false ∧
    (monitorCycle config true probe).terminated = false := by
  have h1 : getRetrytimes config key = 0 := by simp [getRetrytimes, h]
  have h2 : getAction config key = "nothing" := by simp [getAction, h]
  have hcycle : monitorCycle config true probe =
      decidingStep "nothing" key 1
        { attempts := 1, status_code := probe 0, probesUsed := 1, logs := [] } := by
    show probeCycle config probe = _
    simp only [probeCycle, hp, h1, h2, Nat.add_zero]
    rw [retryLoopAux_guard_false probe key 1 1
      { attempts := 1, status_code := probe 0, probesUsed := 1, logs := [] }
      (by unfold retryGuard; simp)]
  obtain ⟨hk, hs, hatt, hpu, hm, hprb, hrnr, hcf, hcs, hcr, hrdo, hterm, hlast⟩ :=
    decidingStep_spec "nothing" key 1
      { attempts := 1, status_code := probe 0, probesUsed := 1, logs := [] }
  rw [hcycle]
  refine ⟨h1, h2, hatt, hpu, ?_, ?_⟩
  · rw [hrdo, show ("nothing" == "restart") = false from rfl, Bool.and_false]
  · rw [hterm, show ("nothing" == "restart") = false from rfl, Bool.and_false]

/-- Witness for claim C7: the key `'http500'` is absent from `cfg403`,
and a cycle of constant-500 probes does not retry or restart. -/
theorem default_policy_entry_witness :
    cfg403.get "http500" = none ∧
    outcome_key_of ((fun _ : Nat => ProbeResult.status 500) 0) = "http500" ∧
    getRetrytimes cfg403 "http500" = 0 ∧ getAction cfg403 "http500" = "nothing" ∧
    (monitorCycle cfg403 true (fun _ => ProbeResult.status 500)).attempts = 1 ∧
    (monitorCycle cfg403 true (fun _ => ProbeResult.status 500)).probesUsed = 1 ∧
    (monitorCycle cfg403 true (fun _ => ProbeResult.status 500)).restartedDueOutcome = false ∧
    (monitorCycle cfg403 true (fun _ => ProbeResult.status 500)).terminated = false := by
  have h : cfg403.get "http500" = none := by decide
  have hp : outcome_key_of ((fun _ : Nat => ProbeResult.status 500) 0) = "http500" := by decide
  have hd := default_policy_entry cfg403 "http500" (fun _ => ProbeResult.status 500) h hp
  exact ⟨h, hp, hd.1, hd.2.1, hd.2.2.1, hd.2.2.2.1, hd.2.2.2.2.1, hd.2.2.2.2.2⟩

/-- Claim C8 (code bug): the spec requires that a failure to write a
log line never terminates the supervision loop, but `log_to_file`
(webmon.py lines 47-55) has no exception handler and `monitor_ubs`
none either, so a raising log write propagates and aborts the cycle:
with an unwritable log sink, the constant-403 cycle under `cfg403` ends
in a propagated exception instead of completing its retry and decision
logic. -/
theorem log_failure_aborts_cycle :
    cycleAborted (monitorCycleE (fun _ => false) cfg403 true
      (fun _ => ProbeResult.status 403)) = true ∧
    monitorCycleE (fun _ => false) cfg403 true (fun _ => ProbeResult.status 403) =
      Except.error () :=
  ⟨by decide, by rfl⟩

/-- Claim C9: a cycle whose first probe is a transport error (key
`'error'`) performs zero retry probes regardless of any configured
`retrytimes` for `'error'`, never terminates or restarts the process
due to that outcome regardless of a configured `restart` action, and
ends by logging one success event. -/
theorem error_outcome_no_retry_no_restart (config : Config) (probe : Nat → ProbeResult)
    (h : probe 0 = ProbeResult.error) :
    (monitorCycle config true probe).probesUsed = 1 ∧
    (monitorCycle config true probe).attempts = 1 ∧
    (monitorCycle config true probe).terminated = false ∧
    (monitorCycle config true probe).restartedDueOutcome = false ∧
    countSuccess (monitorCycle config true probe).logs = 1 ∧
    countFailed (monitorCycle config true probe).logs = 0 ∧
    countRestartOutcome (monitorCycle config true probe).logs = 0 := by
  have hmc : monitorCycle config true probe = probeCycle config probe := rfl
  rw [hmc]
  simp only [probeCycle, h]
  have hkey : outcome_key_of ProbeResult.error = "error" := rfl
  rw [hkey]
  rw [retryLoopAux_guard_false probe "error" (1 + getRetrytimes config "error")
    (1 + getRetrytimes config "error")
    { attempts := 1, status_code := ProbeResult.error, probesUsed := 1, logs := [] }
    (by
      unfold retryGuard
      rw [show status_code_matches ProbeResult.error "error" = false from rfl]
      simp)]
  unfold decidingStep
  rw [show (status_code_matches ProbeResult.error "error" && !("error" == "http200")) = false
    from rfl]
  simp [countSuccess, countFailed, countRestartOutcome]

/-- Witness for claim C9: even with `{"error": {"retrytimes": 2,
"action": "restart"}}` configured, a constant-transport-error cycle
does not retry, does not restart, and logs a success event. -/
theorem error_outcome_no_retry_no_restart_witness :
    (fun _ : Nat => ProbeResult.error) 0 = ProbeResult.error ∧
    (monitorCycle cfgError true (fun _ => ProbeResult.error)).probesUsed = 1 ∧
    (monitorCycle cfgError true (fun _ => ProbeResult.error)).attempts = 1 ∧
    (monitorCycle cfgError true (fun _ => ProbeResult.error)).terminated = false ∧
    (monitorCycle cfgError true (fun _ => ProbeResult.error)).restartedDueOutcome = false ∧
    countSuccess (monitorCycle cfgError true (fun _ => ProbeResult.error)).logs = 1 := by
  have hd := error_outcome_no_retry_no_restart cfgError (fun _ => ProbeResult.error) rfl
  exact ⟨rfl, hd.1, hd.2.1, hd.2.2.1, hd.2.2.2.1, hd.2.2.2.2.1⟩

/-- Claim C10: `perform_request` is total with respect to request
failures: whatever the underlying request does (response, timeout
exception, any other exception), it returns a status code, `'timeout'`,
or `'error'`, and never propagates the exception. -/
theorem perform_request_total (net : NetResult) :
    (∃ code, perform_request net = ProbeResult.status code) ∨
      perform_request net = ProbeResult.timeout ∨
      perform_request net = ProbeResult.error := by
  cases net with
  | response code => exact Or.inl ⟨code, rfl⟩
  | timeoutRaised => exact Or.inr (Or.inl rfl)
  | otherErrorRaised => exact Or.inr (Or.inr rfl)

end Webmon
